import Mathlib

/-!
# Verification of the nope-net python-sdk data model and client contract

Shallow embedding of the SDK's pydantic models (`src/nope/types.py`) and of
the client facade / transport error mapping described by the specification.
JSON values are modelled by an inductive type with rational numbers standing
for JSON numbers; pydantic validation (`model_validate`) is modelled by
explicit parse functions `Json → Except SchemaError α`, and serialization
(`model_dump`) by encode functions `α → Json`.
-/

namespace Nope

/-- JSON values. Numbers are modelled as rationals. -/
inductive Json where
  | null : Json
  | bool : Bool → Json
  | num : Rat → Json
  | str : String → Json
  | arr : List Json → Json
  | obj : List (String × Json) → Json

/-- First-match lookup of a key in an object's field list (python dicts have
unique keys, so first-match agrees with dict lookup). -/
def lookupField : List (String × Json) → String → Option Json
  | [], _ => none
  | (k', v) :: rest, k => if k' == k then some v else lookupField rest k

/-- Field access: `none` when the value is not an object or lacks the key. -/
def Json.getField : Json → String → Option Json
  | .obj fields, k => lookupField fields k
  | _, _ => none

/-- A validation failure naming the offending field and the offending value
(pydantic `ValidationError` locations carry the field name and input). -/
structure SchemaError where
  field : String
  value : String
deriving DecidableEq, Repr

/-- `Except.ok` bind reduction. -/
theorem eok_bind {ε α β : Type} (a : α) (f : α → Except ε β) :
    (Except.ok a : Except ε α) >>= f = f a := rfl

/-- `Except.error` bind reduction. -/
theorem eerr_bind {ε α β : Type} (e : ε) (f : α → Except ε β) :
    (Except.error e : Except ε α) >>= f = Except.error e := rfl

/-- `Except.map` on a success. -/
theorem emap_ok {ε α β : Type} (f : α → β) (a : α) :
    Except.map f (Except.ok a : Except ε α) = .ok (f a) := rfl

-- =========================================================================
-- Enums / Literals (types.py lines 16-63)
-- =========================================================================

/-- `Severity = Literal["none", "mild", "moderate", "high", "critical"]`. -/
inductive Severity where
  | none | mild | moderate | high | critical
deriving DecidableEq, Repr

/-- The five severity literals, in source order. -/
def severityStrings : List String := ["none", "mild", "moderate", "high", "critical"]

def Severity.ofString : String → Option Severity
  | "none" => some .none
  | "mild" => some .mild
  | "moderate" => some .moderate
  | "high" => some .high
  | "critical" => some .critical
  | _ => Option.none

def Severity.toStr : Severity → String
  | .none => "none"
  | .mild => "mild"
  | .moderate => "moderate"
  | .high => "high"
  | .critical => "critical"

/-- `Imminence = Literal["not_applicable", "chronic", "subacute", "urgent", "emergency"]`. -/
inductive Imminence where
  | not_applicable | chronic | subacute | urgent | emergency
deriving DecidableEq, Repr

/-- The five imminence literals, in source order. -/
def imminenceStrings : List String :=
  ["not_applicable", "chronic", "subacute", "urgent", "emergency"]

def Imminence.ofString : String → Option Imminence
  | "not_applicable" => some .not_applicable
  | "chronic" => some .chronic
  | "subacute" => some .subacute
  | "urgent" => some .urgent
  | "emergency" => some .emergency
  | _ => none

def Imminence.toStr : Imminence → String
  | .not_applicable => "not_applicable"
  | .chronic => "chronic"
  | .subacute => "subacute"
  | .urgent => "urgent"
  | .emergency => "emergency"

/-- `RiskDomain = Literal["self", "others", "dependent_at_risk", "victimisation"]`. -/
inductive RiskDomain where
  | self | others | dependent_at_risk | victimisation
deriving DecidableEq, Repr

/-- The four risk-domain discriminant literals, in source order. -/
def riskDomainStrings : List String := ["self", "others", "dependent_at_risk", "victimisation"]

def RiskDomain.ofString : String → Option RiskDomain
  | "self" => some .self
  | "others" => some .others
  | "dependent_at_risk" => some .dependent_at_risk
  | "victimisation" => some .victimisation
  | _ => none

/-- `SelfSubtype = Literal["suicidal_or_self_injury", "self_neglect", "other"]`. -/
inductive SelfSubtype where
  | suicidal_or_self_injury | self_neglect | other
deriving DecidableEq, Repr

def SelfSubtype.ofString : String → Option SelfSubtype
  | "suicidal_or_self_injury" => some .suicidal_or_self_injury
  | "self_neglect" => some .self_neglect
  | "other" => some .other
  | _ => none

/-- `DependentSubtype = Literal["child", "adult_at_risk", "animal_or_other"]`. -/
inductive DependentSubtype where
  | child | adult_at_risk | animal_or_other
deriving DecidableEq, Repr

def DependentSubtype.ofString : String → Option DependentSubtype
  | "child" => some .child
  | "adult_at_risk" => some .adult_at_risk
  | "animal_or_other" => some .animal_or_other
  | _ => none

/-- `VictimisationSubtype` literal (types.py lines 21-28). -/
inductive VictimisationSubtype where
  | IPV_intimate_partner | family_non_intimate | trafficking_exploitation
  | community_violence | institutional_abuse | other
deriving DecidableEq, Repr

def VictimisationSubtype.ofString : String → Option VictimisationSubtype
  | "IPV_intimate_partner" => some .IPV_intimate_partner
  | "family_non_intimate" => some .family_non_intimate
  | "trafficking_exploitation" => some .trafficking_exploitation
  | "community_violence" => some .community_violence
  | "institutional_abuse" => some .institutional_abuse
  | "other" => some .other
  | _ => none

/-- `EvidenceGrade = Literal["strong", "moderate", "weak", "consensus", "none"]`. -/
inductive EvidenceGrade where
  | strong | moderate | weak | consensus | none
deriving DecidableEq, Repr

def EvidenceGrade.ofString : String → Option EvidenceGrade
  | "strong" => some .strong
  | "moderate" => some .moderate
  | "weak" => some .weak
  | "consensus" => some .consensus
  | "none" => some .none
  | _ => Option.none

/-- `CrisisResourceType` literal (types.py lines 30-32). -/
inductive CrisisResourceType where
  | emergency_number | crisis_line | text_line | chat_service | support_service
deriving DecidableEq, Repr

def CrisisResourceType.ofString : String → Option CrisisResourceType
  | "emergency_number" => some .emergency_number
  | "crisis_line" => some .crisis_line
  | "text_line" => some .text_line
  | "chat_service" => some .chat_service
  | "support_service" => some .support_service
  | _ => none

/-- `CrisisResourceKind` literal (types.py line 33). -/
inductive CrisisResourceKind where
  | helpline | reporting_portal | directory | self_help_site
deriving DecidableEq, Repr

def CrisisResourceKind.ofString : String → Option CrisisResourceKind
  | "helpline" => some .helpline
  | "reporting_portal" => some .reporting_portal
  | "directory" => some .directory
  | "self_help_site" => some .self_help_site
  | _ => none

/-- `CrisisResourcePriorityTier` literal (types.py lines 34-42). -/
inductive CrisisResourcePriorityTier where
  | primary_national_crisis | secondary_national_crisis | specialist_issue_crisis
  | population_specific_crisis | support_info_and_advocacy | support_directory_or_tool
  | emergency_services
deriving DecidableEq, Repr

def CrisisResourcePriorityTier.ofString : String → Option CrisisResourcePriorityTier
  | "primary_national_crisis" => some .primary_national_crisis
  | "secondary_national_crisis" => some .secondary_national_crisis
  | "specialist_issue_crisis" => some .specialist_issue_crisis
  | "population_specific_crisis" => some .population_specific_crisis
  | "support_info_and_advocacy" => some .support_info_and_advocacy
  | "support_directory_or_tool" => some .support_directory_or_tool
  | "emergency_services" => some .emergency_services
  | _ => none

/-- `ResponseIssue` literal (types.py lines 46-62). -/
inductive ResponseIssue where
  | method_or_means_detail | suicide_self_harm_encouragement | crisis_signal_ignored
  | crisis_resources_missing | victim_blaming | harmful_advice
  | dismissive_of_distress | disbelief_of_disclosure | inappropriate_probing
  | reinforces_harmful_beliefs | scripted_robotic_tone | overwhelming_or_unfocused
deriving DecidableEq, Repr

def ResponseIssue.ofString : String → Option ResponseIssue
  | "method_or_means_detail" => some .method_or_means_detail
  | "suicide_self_harm_encouragement" => some .suicide_self_harm_encouragement
  | "crisis_signal_ignored" => some .crisis_signal_ignored
  | "crisis_resources_missing" => some .crisis_resources_missing
  | "victim_blaming" => some .victim_blaming
  | "harmful_advice" => some .harmful_advice
  | "dismissive_of_distress" => some .dismissive_of_distress
  | "disbelief_of_disclosure" => some .disbelief_of_disclosure
  | "inappropriate_probing" => some .inappropriate_probing
  | "reinforces_harmful_beliefs" => some .reinforces_harmful_beliefs
  | "scripted_robotic_tone" => some .scripted_robotic_tone
  | "overwhelming_or_unfocused" => some .overwhelming_or_unfocused
  | _ => none

/-- `ResponseRecommendation = Literal["use", "augment", "replace"]`. -/
inductive ResponseRecommendation where
  | use | augment | replace
deriving DecidableEq, Repr

def ResponseRecommendation.ofString : String → Option ResponseRecommendation
  | "use" => some .use
  | "augment" => some .augment
  | "replace" => some .replace
  | _ => none

-- =========================================================================
-- Generic field decoders (modelling pydantic field validation)
-- =========================================================================

/-- Decode a required string field from its looked-up value. -/
def decStr (k : String) : Option Json → Except SchemaError String
  | some (.str s) => .ok s
  | some _ => .error ⟨k, "type_error"⟩
  | none => .error ⟨k, "missing"⟩

/-- Decode an `Optional[str]` field: absent or JSON `null` gives `none`. -/
def decOptStr (k : String) : Option Json → Except SchemaError (Option String)
  | some (.str s) => .ok (some s)
  | some .null => .ok none
  | some _ => .error ⟨k, "type_error"⟩
  | none => .ok none

/-- Decode a required boolean field. -/
def decBool (k : String) : Option Json → Except SchemaError Bool
  | some (.bool b) => .ok b
  | some _ => .error ⟨k, "type_error"⟩
  | none => .error ⟨k, "missing"⟩

/-- Decode an `Optional[bool]` field. -/
def decOptBool (k : String) : Option Json → Except SchemaError (Option Bool)
  | some (.bool b) => .ok (some b)
  | some .null => .ok none
  | some _ => .error ⟨k, "type_error"⟩
  | none => .ok none

/-- Decode a required float field (no range constraint). -/
def decNum (k : String) : Option Json → Except SchemaError Rat
  | some (.num c) => .ok c
  | some _ => .error ⟨k, "type_error"⟩
  | none => .error ⟨k, "missing"⟩

/-- Decode an `Optional[float]` field. -/
def decOptNum (k : String) : Option Json → Except SchemaError (Option Rat)
  | some (.num c) => .ok (some c)
  | some .null => .ok none
  | some _ => .error ⟨k, "type_error"⟩
  | none => .ok none

/-- Decode an `Optional[int]` field. -/
def decOptInt (k : String) : Option Json → Except SchemaError (Option Int)
  | some (.num c) => if c.den = 1 then .ok (some c.num) else .error ⟨k, "type_error"⟩
  | some .null => .ok none
  | some _ => .error ⟨k, "type_error"⟩
  | none => .ok none

/-- Decode a required float field with pydantic `Field(ge=0.0, le=1.0)`:
out-of-range values are rejected at construction. -/
def decUnitNum (k : String) : Option Json → Except SchemaError Rat
  | some (.num c) => if 0 ≤ c ∧ c ≤ 1 then .ok c else .error ⟨k, "out_of_range"⟩
  | some _ => .error ⟨k, "type_error"⟩
  | none => .error ⟨k, "missing"⟩

/-- Decode a required enumerated literal via its `ofString` table; an
unenumerated value fails naming the field and the offending value. -/
def decEnum {α : Type} (k : String) (ofStr : String → Option α) :
    Option Json → Except SchemaError α
  | some (.str s) =>
    match ofStr s with
    | some v => .ok v
    | none => .error ⟨k, s⟩
  | some _ => .error ⟨k, "type_error"⟩
  | none => .error ⟨k, "missing"⟩

/-- Decode an optional enumerated literal. -/
def decOptEnum {α : Type} (k : String) (ofStr : String → Option α) :
    Option Json → Except SchemaError (Option α)
  | some (.str s) =>
    match ofStr s with
    | some v => .ok (some v)
    | none => .error ⟨k, s⟩
  | some .null => .ok none
  | some _ => .error ⟨k, "type_error"⟩
  | none => .ok none

/-- Decode every element of a JSON array with the same element parser. -/
def parseList {α : Type} (p : Json → Except SchemaError α) :
    List Json → Except SchemaError (List α)
  | [] => .ok []
  | j :: js => do
    let x ← p j
    let xs ← parseList p js
    .ok (x :: xs)

/-- Parse a JSON string element (for `List[str]` fields). -/
def parseStrElem (k : String) : Json → Except SchemaError String
  | .str s => .ok s
  | _ => .error ⟨k, "type_error"⟩

/-- Decode a required `List[str]` field. -/
def decStrList (k : String) : Option Json → Except SchemaError (List String)
  | some (.arr js) => parseList (parseStrElem k) js
  | some _ => .error ⟨k, "type_error"⟩
  | none => .error ⟨k, "missing"⟩

/-- Decode an `Optional[List[str]]` field. -/
def decOptStrList (k : String) : Option Json → Except SchemaError (Option (List String))
  | some (.arr js) => (parseList (parseStrElem k) js).map some
  | some .null => .ok none
  | some _ => .error ⟨k, "type_error"⟩
  | none => .ok none

/-- Decode an optional nested model field. -/
def decOptModel {α : Type} (p : Json → Except SchemaError α) :
    Option Json → Except SchemaError (Option α)
  | some .null => .ok none
  | some v => (p v).map some
  | none => .ok none

-- =========================================================================
-- Request types (types.py lines 71-132)
-- =========================================================================

/-- `Literal["user", "assistant"]` (the `role` field of `Message`). -/
inductive Role where
  | user | assistant
deriving DecidableEq, Repr

def Role.ofString : String → Option Role
  | "user" => some .user
  | "assistant" => some .assistant
  | _ => none

def Role.toStr : Role → String
  | .user => "user"
  | .assistant => "assistant"

/-- `Message`: `{role: Literal["user","assistant"], content: str,
timestamp: Optional[str]}`. -/
structure Message where
  role : Role
  content : String
  timestamp : Option String
deriving DecidableEq, Repr

/-- `model_validate` for `Message`. -/
def parseMessage : Json → Except SchemaError Message
  | .obj fields => do
    let role ← decEnum "role" Role.ofString (lookupField fields "role")
    let content ← decStr "content" (lookupField fields "content")
    let timestamp ← decOptStr "timestamp" (lookupField fields "timestamp")
    .ok ⟨role, content, timestamp⟩
  | _ => .error ⟨"message", "type_error"⟩

/-- `model_dump` for an optional string value (`None` serializes to `null`). -/
def encOptStr : Option String → Json
  | some s => .str s
  | none => .null

/-- `model_dump` for an optional boolean value. -/
def encOptBool : Option Bool → Json
  | some b => .bool b
  | none => .null

/-- `model_dump` for an `Optional[List[str]]` value. -/
def encOptStrList : Option (List String) → Json
  | some xs => .arr (xs.map Json.str)
  | none => .null

/-- `model_dump` for `Message`. -/
def encodeMessage (m : Message) : Json :=
  .obj [("role", .str m.role.toStr), ("content", .str m.content),
        ("timestamp", encOptStr m.timestamp)]

/-- `Literal["adult", "minor", "unknown"]` (`EvaluateConfig.user_age_band`). -/
inductive AgeBand where
  | adult | minor | unknown
deriving DecidableEq, Repr

def AgeBand.ofString : String → Option AgeBand
  | "adult" => some .adult
  | "minor" => some .minor
  | "unknown" => some .unknown
  | _ => none

def AgeBand.toStr : AgeBand → String
  | .adult => "adult"
  | .minor => "minor"
  | .unknown => "unknown"

/-- `Literal["template", "generate"]` (`EvaluateConfig.assistant_safety_mode`). -/
inductive SafetyMode where
  | template | generate
deriving DecidableEq, Repr

def SafetyMode.ofString : String → Option SafetyMode
  | "template" => some .template
  | "generate" => some .generate
  | _ => none

def SafetyMode.toStr : SafetyMode → String
  | .template => "template"
  | .generate => "generate"

/-- `EvaluateConfig` (types.py lines 79-113): every field optional,
absent means server default. -/
structure EvaluateConfig where
  user_country : Option String
  locale : Option String
  user_age_band : Option AgeBand
  policy_id : Option String
  dry_run : Option Bool
  return_assistant_reply : Option Bool
  assistant_safety_mode : Option SafetyMode
  use_multiple_judges : Option Bool
  models : Option (List String)
  conversation_id : Option String
  end_user_id : Option String
deriving DecidableEq, Repr

/-- The all-`None` value produced by `EvaluateConfig()` (pydantic defaults). -/
def defaultEvaluateConfig : EvaluateConfig :=
  ⟨none, none, none, none, none, none, none, none, none, none, none⟩

/-- `model_validate` for `EvaluateConfig`. -/
def parseEvaluateConfig : Json → Except SchemaError EvaluateConfig
  | .obj fields => do
    let user_country ← decOptStr "user_country" (lookupField fields "user_country")
    let locale ← decOptStr "locale" (lookupField fields "locale")
    let user_age_band ← decOptEnum "user_age_band" AgeBand.ofString
      (lookupField fields "user_age_band")
    let policy_id ← decOptStr "policy_id" (lookupField fields "policy_id")
    let dry_run ← decOptBool "dry_run" (lookupField fields "dry_run")
    let return_assistant_reply ← decOptBool "return_assistant_reply"
      (lookupField fields "return_assistant_reply")
    let assistant_safety_mode ← decOptEnum "assistant_safety_mode" SafetyMode.ofString
      (lookupField fields "assistant_safety_mode")
    let use_multiple_judges ← decOptBool "use_multiple_judges"
      (lookupField fields "use_multiple_judges")
    let models ← decOptStrList "models" (lookupField fields "models")
    let conversation_id ← decOptStr "conversation_id" (lookupField fields "conversation_id")
    let end_user_id ← decOptStr "end_user_id" (lookupField fields "end_user_id")
    .ok ⟨user_country, locale, user_age_band, policy_id, dry_run, return_assistant_reply,
         assistant_safety_mode, use_multiple_judges, models, conversation_id, end_user_id⟩
  | _ => .error ⟨"config", "type_error"⟩

/-- `model_dump` for an optional enumerated value given its rendering. -/
def encOptEnum {α : Type} (toS : α → String) : Option α → Json
  | some v => .str (toS v)
  | none => .null

/-- `model_dump` for `EvaluateConfig`. -/
def encodeEvaluateConfig (c : EvaluateConfig) : Json :=
  .obj [("user_country", encOptStr c.user_country),
        ("locale", encOptStr c.locale),
        ("user_age_band", encOptEnum AgeBand.toStr c.user_age_band),
        ("policy_id", encOptStr c.policy_id),
        ("dry_run", encOptBool c.dry_run),
        ("return_assistant_reply", encOptBool c.return_assistant_reply),
        ("assistant_safety_mode", encOptEnum SafetyMode.toStr c.assistant_safety_mode),
        ("use_multiple_judges", encOptBool c.use_multiple_judges),
        ("models", encOptStrList c.models),
        ("conversation_id", encOptStr c.conversation_id),
        ("end_user_id", encOptStr c.end_user_id)]

/-- `EvaluateRequest` (types.py lines 116-132). The model itself places no
exclusivity constraint on `messages`/`text`: both are plain optional fields,
and `config` has `default_factory=EvaluateConfig`. -/
structure EvaluateRequest where
  messages : Option (List Message)
  text : Option String
  config : EvaluateConfig
  user_context : Option String
  proposed_response : Option String
deriving DecidableEq, Repr

/-- Decode the `Optional[List[Message]]` field. -/
def decOptMessages (k : String) : Option Json → Except SchemaError (Option (List Message))
  | some (.arr js) => (parseList parseMessage js).map some
  | some .null => .ok none
  | some _ => .error ⟨k, "type_error"⟩
  | none => .ok none

/-- Decode the `config` field: absent means `default_factory=EvaluateConfig`. -/
def decConfig : Option Json → Except SchemaError EvaluateConfig
  | some v => parseEvaluateConfig v
  | none => .ok defaultEvaluateConfig

/-- `model_validate` for `EvaluateRequest`: any combination of
`messages`/`text` (both, neither, or one) is accepted by the model. -/
def parseEvaluateRequest : Json → Except SchemaError EvaluateRequest
  | .obj fields => do
    let messages ← decOptMessages "messages" (lookupField fields "messages")
    let text ← decOptStr "text" (lookupField fields "text")
    let config ← decConfig (lookupField fields "config")
    let user_context ← decOptStr "user_context" (lookupField fields "user_context")
    let proposed_response ← decOptStr "proposed_response" (lookupField fields "proposed_response")
    .ok ⟨messages, text, config, user_context, proposed_response⟩
  | _ => .error ⟨"request", "type_error"⟩

/-- `model_dump` for the `Optional[List[Message]]` field. -/
def encOptMessages : Option (List Message) → Json
  | some ms => .arr (ms.map encodeMessage)
  | none => .null

/-- `model_dump` for `EvaluateRequest`. -/
def encodeEvaluateRequest (r : EvaluateRequest) : Json :=
  .obj [("messages", encOptMessages r.messages),
        ("text", encOptStr r.text),
        ("config", encodeEvaluateConfig r.config),
        ("user_context", encOptStr r.user_context),
        ("proposed_response", encOptStr r.proposed_response)]

-- =========================================================================
-- Request round-trip lemmas
-- =========================================================================

theorem decOptStr_enc (k : String) (o : Option String) :
    decOptStr k (some (encOptStr o)) = .ok o := by
  cases o <;> rfl

theorem decOptBool_enc (k : String) (o : Option Bool) :
    decOptBool k (some (encOptBool o)) = .ok o := by
  cases o <;> rfl

theorem parseList_strElem (k : String) (xs : List String) :
    parseList (parseStrElem k) (xs.map Json.str) = .ok xs := by
  induction xs with
  | nil => rfl
  | cons x xs ih => simp [parseList, parseStrElem, ih, eok_bind]

theorem decOptStrList_enc (k : String) (o : Option (List String)) :
    decOptStrList k (some (encOptStrList o)) = .ok o := by
  cases o with
  | none => rfl
  | some xs => simp [encOptStrList, decOptStrList, parseList_strElem, emap_ok]

theorem decOptAgeBand_enc (k : String) (o : Option AgeBand) :
    decOptEnum k AgeBand.ofString (some (encOptEnum AgeBand.toStr o)) = .ok o := by
  rcases o with _ | v
  · rfl
  · cases v <;> rfl

theorem decOptSafetyMode_enc (k : String) (o : Option SafetyMode) :
    decOptEnum k SafetyMode.ofString (some (encOptEnum SafetyMode.toStr o)) = .ok o := by
  rcases o with _ | v
  · rfl
  · cases v <;> rfl

theorem parseMessage_enc (m : Message) : parseMessage (encodeMessage m) = .ok m := by
  rcases m with ⟨role, content, timestamp⟩
  cases role <;> cases timestamp <;> rfl

theorem parseList_message (ms : List Message) :
    parseList parseMessage (ms.map encodeMessage) = .ok ms := by
  induction ms with
  | nil => rfl
  | cons m ms ih => simp [parseList, parseMessage_enc, ih, eok_bind]

theorem decOptMessages_enc (k : String) (o : Option (List Message)) :
    decOptMessages k (some (encOptMessages o)) = .ok o := by
  cases o with
  | none => rfl
  | some ms => simp [encOptMessages, decOptMessages, parseList_message, emap_ok]

theorem parseEvaluateConfig_enc (c : EvaluateConfig) :
    parseEvaluateConfig (encodeEvaluateConfig c) = .ok c := by
  simp [encodeEvaluateConfig, parseEvaluateConfig, lookupField, decOptStr_enc,
    decOptBool_enc, decOptStrList_enc, decOptAgeBand_enc, decOptSafetyMode_enc, eok_bind]

/-- C7: for every valid `EvaluateRequest` value, serializing to JSON and
deserializing the result is the identity: the round-trip is lossless for
every field (in particular for every field the sender set). -/
theorem evaluateRequest_roundtrip_lossless (r : EvaluateRequest) :
    parseEvaluateRequest (encodeEvaluateRequest r) = .ok r := by
  simp [encodeEvaluateRequest, parseEvaluateRequest, lookupField, decOptMessages_enc,
    decOptStr_enc, decConfig, parseEvaluateConfig_enc, eok_bind]

-- =========================================================================
-- Response types (types.py lines 140-399)
-- =========================================================================

/-- Decode a required nested model field. -/
def decModel {α : Type} (k : String) (p : Json → Except SchemaError α) :
    Option Json → Except SchemaError α
  | some v => p v
  | none => .error ⟨k, "missing"⟩

/-- Decode a required `List[...]` field with the given element parser. -/
def decList {α : Type} (k : String) (p : Json → Except SchemaError α) :
    Option Json → Except SchemaError (List α)
  | some (.arr js) => parseList p js
  | some _ => .error ⟨k, "type_error"⟩
  | none => .error ⟨k, "missing"⟩

/-- Decode an `Optional[List[...]]` field with the given element parser. -/
def decOptList {α : Type} (k : String) (p : Json → Except SchemaError α) :
    Option Json → Except SchemaError (Option (List α))
  | some (.arr js) => (parseList p js).map some
  | some .null => .ok none
  | some _ => .error ⟨k, "type_error"⟩
  | none => .ok none

/-- `Literal["database", "web_search"]` (`CrisisResource.source`). -/
inductive ResourceSource where
  | database | web_search
deriving DecidableEq, Repr

def ResourceSource.ofString : String → Option ResourceSource
  | "database" => some .database
  | "web_search" => some .web_search
  | _ => none

/-- `CrisisResource` (types.py lines 140-161). -/
structure CrisisResource where
  type : CrisisResourceType
  name : String
  name_local : Option String
  phone : Option String
  text_instructions : Option String
  chat_url : Option String
  whatsapp_url : Option String
  website_url : Option String
  availability : Option String
  is_24_7 : Option Bool
  languages : Option (List String)
  description : Option String
  resource_kind : Option CrisisResourceKind
  service_scope : Option (List String)
  population_served : Option (List String)
  priority_tier : Option CrisisResourcePriorityTier
  source : Option ResourceSource
deriving DecidableEq, Repr

/-- `model_validate` for `CrisisResource`. -/
def parseCrisisResource : Json → Except SchemaError CrisisResource
  | .obj fields => do
    let type ← decEnum "type" CrisisResourceType.ofString (lookupField fields "type")
    let name ← decStr "name" (lookupField fields "name")
    let name_local ← decOptStr "name_local" (lookupField fields "name_local")
    let phone ← decOptStr "phone" (lookupField fields "phone")
    let text_instructions ← decOptStr "text_instructions" (lookupField fields "text_instructions")
    let chat_url ← decOptStr "chat_url" (lookupField fields "chat_url")
    let whatsapp_url ← decOptStr "whatsapp_url" (lookupField fields "whatsapp_url")
    let website_url ← decOptStr "website_url" (lookupField fields "website_url")
    let availability ← decOptStr "availability" (lookupField fields "availability")
    let is_24_7 ← decOptBool "is_24_7" (lookupField fields "is_24_7")
    let languages ← decOptStrList "languages" (lookupField fields "languages")
    let description ← decOptStr "description" (lookupField fields "description")
    let resource_kind ← decOptEnum "resource_kind" CrisisResourceKind.ofString
      (lookupField fields "resource_kind")
    let service_scope ← decOptStrList "service_scope" (lookupField fields "service_scope")
    let population_served ← decOptStrList "population_served"
      (lookupField fields "population_served")
    let priority_tier ← decOptEnum "priority_tier" CrisisResourcePriorityTier.ofString
      (lookupField fields "priority_tier")
    let source ← decOptEnum "source" ResourceSource.ofString (lookupField fields "source")
    .ok ⟨type, name, name_local, phone, text_instructions, chat_url, whatsapp_url,
         website_url, availability, is_24_7, languages, description, resource_kind,
         service_scope, population_served, priority_tier, source⟩
  | _ => .error ⟨"crisis_resource", "type_error"⟩

/-- `PresentationModifiers` (types.py lines 164-172). -/
structure PresentationModifiers where
  psychotic_features : Option Bool
  substance_involved : Option Bool
  cognitive_impairment : Option Bool
  personality_features : Option Bool
  acute_decompensation : Option Bool
  self_neglect_severe : Option Bool
deriving DecidableEq, Repr

/-- `model_validate` for `PresentationModifiers`. -/
def parsePresentationModifiers : Json → Except SchemaError PresentationModifiers
  | .obj fields => do
    let psychotic_features ← decOptBool "psychotic_features"
      (lookupField fields "psychotic_features")
    let substance_involved ← decOptBool "substance_involved"
      (lookupField fields "substance_involved")
    let cognitive_impairment ← decOptBool "cognitive_impairment"
      (lookupField fields "cognitive_impairment")
    let personality_features ← decOptBool "personality_features"
      (lookupField fields "personality_features")
    let acute_decompensation ← decOptBool "acute_decompensation"
      (lookupField fields "acute_decompensation")
    let self_neglect_severe ← decOptBool "self_neglect_severe"
      (lookupField fields "self_neglect_severe")
    .ok ⟨psychotic_features, substance_involved, cognitive_impairment,
         personality_features, acute_decompensation, self_neglect_severe⟩
  | _ => .error ⟨"presentation_modifiers", "type_error"⟩

/-- `SafeguardingFlags` (types.py lines 175-181). -/
structure SafeguardingFlags where
  child_at_risk : Option Bool
  adult_at_risk : Option Bool
  duty_to_warn_others : Option Bool
  mandatory_reporting_possible : Option Bool
deriving DecidableEq, Repr

/-- `model_validate` for `SafeguardingFlags`. -/
def parseSafeguardingFlags : Json → Except SchemaError SafeguardingFlags
  | .obj fields => do
    let child_at_risk ← decOptBool "child_at_risk" (lookupField fields "child_at_risk")
    let adult_at_risk ← decOptBool "adult_at_risk" (lookupField fields "adult_at_risk")
    let duty_to_warn_others ← decOptBool "duty_to_warn_others"
      (lookupField fields "duty_to_warn_others")
    let mandatory_reporting_possible ← decOptBool "mandatory_reporting_possible"
      (lookupField fields "mandatory_reporting_possible")
    .ok ⟨child_at_risk, adult_at_risk, duty_to_warn_others, mandatory_reporting_possible⟩
  | _ => .error ⟨"safeguarding_flags", "type_error"⟩

/-- `Literal["weak", "moderate", "strong"]` (`protective_factor_strength`). -/
inductive FactorStrength where
  | weak | moderate | strong
deriving DecidableEq, Repr

def FactorStrength.ofString : String → Option FactorStrength
  | "weak" => some .weak
  | "moderate" => some .moderate
  | "strong" => some .strong
  | _ => none

/-- `ProtectiveFactorsInfo` (types.py lines 184-188). -/
structure ProtectiveFactorsInfo where
  protective_factors : Option (List String)
  protective_factor_strength : Option FactorStrength
deriving DecidableEq, Repr

/-- `model_validate` for `ProtectiveFactorsInfo`. -/
def parseProtectiveFactorsInfo : Json → Except SchemaError ProtectiveFactorsInfo
  | .obj fields => do
    let protective_factors ← decOptStrList "protective_factors"
      (lookupField fields "protective_factors")
    let protective_factor_strength ← decOptEnum "protective_factor_strength"
      FactorStrength.ofString (lookupField fields "protective_factor_strength")
    .ok ⟨protective_factors, protective_factor_strength⟩
  | _ => .error ⟨"protective_factors_info", "type_error"⟩

/-- `ThirdPartyThreat` (types.py lines 191-198). -/
structure ThirdPartyThreat where
  present : Bool
  identifiable_victim : Bool
  confidence : Rat
  rationale : String
  evidence_grade : Option EvidenceGrade
deriving DecidableEq, Repr

/-- `model_validate` for `ThirdPartyThreat`. -/
def parseThirdPartyThreat : Json → Except SchemaError ThirdPartyThreat
  | .obj fields => do
    let present ← decBool "present" (lookupField fields "present")
    let identifiable_victim ← decBool "identifiable_victim"
      (lookupField fields "identifiable_victim")
    let confidence ← decNum "confidence" (lookupField fields "confidence")
    let rationale ← decStr "rationale" (lookupField fields "rationale")
    let evidence_grade ← decOptEnum "evidence_grade" EvidenceGrade.ofString
      (lookupField fields "evidence_grade")
    .ok ⟨present, identifiable_victim, confidence, rationale, evidence_grade⟩
  | _ => .error ⟨"third_party_threat", "type_error"⟩

/-- `Literal["standard", "elevated", "severe", "extreme"]` (IPV `risk_level`). -/
inductive IpvRiskLevel where
  | standard | elevated | severe | extreme
deriving DecidableEq, Repr

def IpvRiskLevel.ofString : String → Option IpvRiskLevel
  | "standard" => some .standard
  | "elevated" => some .elevated
  | "severe" => some .severe
  | "extreme" => some .extreme
  | _ => none

/-- `IntimatePartnerViolence` (types.py lines 201-208). -/
structure IntimatePartnerViolence where
  risk_level : IpvRiskLevel
  confidence : Rat
  strangulation_history : Option Bool
  escalation_pattern : Option Bool
  evidence_grade : Option EvidenceGrade
deriving DecidableEq, Repr

/-- `model_validate` for `IntimatePartnerViolence`. -/
def parseIntimatePartnerViolence : Json → Except SchemaError IntimatePartnerViolence
  | .obj fields => do
    let risk_level ← decEnum "risk_level" IpvRiskLevel.ofString (lookupField fields "risk_level")
    let confidence ← decNum "confidence" (lookupField fields "confidence")
    let strangulation_history ← decOptBool "strangulation_history"
      (lookupField fields "strangulation_history")
    let escalation_pattern ← decOptBool "escalation_pattern"
      (lookupField fields "escalation_pattern")
    let evidence_grade ← decOptEnum "evidence_grade" EvidenceGrade.ofString
      (lookupField fields "evidence_grade")
    .ok ⟨risk_level, confidence, strangulation_history, escalation_pattern, evidence_grade⟩
  | _ => .error ⟨"intimate_partner_violence", "type_error"⟩

/-- `Literal["routine", "prompt", "urgent", "emergency"]` (safeguarding `urgency`). -/
inductive Urgency where
  | routine | prompt | urgent | emergency
deriving DecidableEq, Repr

def Urgency.ofString : String → Option Urgency
  | "routine" => some .routine
  | "prompt" => some .prompt
  | "urgent" => some .urgent
  | "emergency" => some .emergency
  | _ => none

/-- `ChildSafeguarding` (types.py lines 211-218). -/
structure ChildSafeguarding where
  urgency : Urgency
  confidence : Rat
  basic_needs_unmet : Option Bool
  immediate_danger : Option Bool
  evidence_grade : Option EvidenceGrade
deriving DecidableEq, Repr

/-- `model_validate` for `ChildSafeguarding`. -/
def parseChildSafeguarding : Json → Except SchemaError ChildSafeguarding
  | .obj fields => do
    let urgency ← decEnum "urgency" Urgency.ofString (lookupField fields "urgency")
    let confidence ← decNum "confidence" (lookupField fields "confidence")
    let basic_needs_unmet ← decOptBool "basic_needs_unmet"
      (lookupField fields "basic_needs_unmet")
    let immediate_danger ← decOptBool "immediate_danger" (lookupField fields "immediate_danger")
    let evidence_grade ← decOptEnum "evidence_grade" EvidenceGrade.ofString
      (lookupField fields "evidence_grade")
    .ok ⟨urgency, confidence, basic_needs_unmet, immediate_danger, evidence_grade⟩
  | _ => .error ⟨"child_safeguarding", "type_error"⟩

/-- `VulnerableAdultSafeguarding` (types.py lines 221-226). -/
structure VulnerableAdultSafeguarding where
  urgency : Urgency
  confidence : Rat
  evidence_grade : Option EvidenceGrade
deriving DecidableEq, Repr

/-- `model_validate` for `VulnerableAdultSafeguarding`. -/
def parseVulnerableAdultSafeguarding : Json → Except SchemaError VulnerableAdultSafeguarding
  | .obj fields => do
    let urgency ← decEnum "urgency" Urgency.ofString (lookupField fields "urgency")
    let confidence ← decNum "confidence" (lookupField fields "confidence")
    let evidence_grade ← decOptEnum "evidence_grade" EvidenceGrade.ofString
      (lookupField fields "evidence_grade")
    .ok ⟨urgency, confidence, evidence_grade⟩
  | _ => .error ⟨"vulnerable_adult_safeguarding", "type_error"⟩

/-- `AnimalCrueltyIndicator` (types.py lines 229-234). -/
structure AnimalCrueltyIndicator where
  present : Bool
  confidence : Rat
  evidence_grade : Option EvidenceGrade
deriving DecidableEq, Repr

/-- `model_validate` for `AnimalCrueltyIndicator`. -/
def parseAnimalCrueltyIndicator : Json → Except SchemaError AnimalCrueltyIndicator
  | .obj fields => do
    let present ← decBool "present" (lookupField fields "present")
    let confidence ← decNum "confidence" (lookupField fields "confidence")
    let evidence_grade ← decOptEnum "evidence_grade" EvidenceGrade.ofString
      (lookupField fields "evidence_grade")
    .ok ⟨present, confidence, evidence_grade⟩
  | _ => .error ⟨"animal_cruelty_indicator", "type_error"⟩

/-- `LegalFlags` (types.py lines 237-244): each indicator independently optional. -/
structure LegalFlags where
  third_party_threat : Option ThirdPartyThreat
  intimate_partner_violence : Option IntimatePartnerViolence
  child_safeguarding : Option ChildSafeguarding
  vulnerable_adult_safeguarding : Option VulnerableAdultSafeguarding
  animal_cruelty_indicator : Option AnimalCrueltyIndicator
deriving DecidableEq, Repr

/-- `model_validate` for `LegalFlags`. -/
def parseLegalFlags : Json → Except SchemaError LegalFlags
  | .obj fields => do
    let third_party_threat ← decOptModel parseThirdPartyThreat
      (lookupField fields "third_party_threat")
    let intimate_partner_violence ← decOptModel parseIntimatePartnerViolence
      (lookupField fields "intimate_partner_violence")
    let child_safeguarding ← decOptModel parseChildSafeguarding
      (lookupField fields "child_safeguarding")
    let vulnerable_adult_safeguarding ← decOptModel parseVulnerableAdultSafeguarding
      (lookupField fields "vulnerable_adult_safeguarding")
    let animal_cruelty_indicator ← decOptModel parseAnimalCrueltyIndicator
      (lookupField fields "animal_cruelty_indicator")
    .ok ⟨third_party_threat, intimate_partner_violence, child_safeguarding,
         vulnerable_adult_safeguarding, animal_cruelty_indicator⟩
  | _ => .error ⟨"legal_flags", "type_error"⟩

/-- `GlobalAssessment` (types.py lines 247-254). -/
structure GlobalAssessment where
  overall_severity : Severity
  overall_imminence : Imminence
  primary_concerns : List String
  language : Option String
  locale : Option String
deriving DecidableEq, Repr

/-- `model_validate` for `GlobalAssessment`. -/
def parseGlobalAssessment : Json → Except SchemaError GlobalAssessment
  | .obj fields => do
    let overall_severity ← decEnum "overall_severity" Severity.ofString
      (lookupField fields "overall_severity")
    let overall_imminence ← decEnum "overall_imminence" Imminence.ofString
      (lookupField fields "overall_imminence")
    let primary_concerns ← decStrList "primary_concerns" (lookupField fields "primary_concerns")
    let language ← decOptStr "language" (lookupField fields "language")
    let locale ← decOptStr "locale" (lookupField fields "locale")
    .ok ⟨overall_severity, overall_imminence, primary_concerns, language, locale⟩
  | _ => .error ⟨"global", "type_error"⟩

/-- `BaseDomainAssessment` (types.py lines 257-265): shared base fields;
`confidence` carries `Field(ge=0.0, le=1.0)`. -/
structure BaseDomainAssessment where
  severity : Severity
  imminence : Imminence
  confidence : Rat
  risk_features : List String
  risk_types : Option (List String)
  reasoning : Option String
deriving DecidableEq, Repr

/-- Validation of the shared `BaseDomainAssessment` fields of a domain
assessment object. -/
def parseBaseFields (fields : List (String × Json)) :
    Except SchemaError BaseDomainAssessment := do
  let severity ← decEnum "severity" Severity.ofString (lookupField fields "severity")
  let imminence ← decEnum "imminence" Imminence.ofString (lookupField fields "imminence")
  let confidence ← decUnitNum "confidence" (lookupField fields "confidence")
  let risk_features ← decStrList "risk_features" (lookupField fields "risk_features")
  let risk_types ← decOptStrList "risk_types" (lookupField fields "risk_types")
  let reasoning ← decOptStr "reasoning" (lookupField fields "reasoning")
  .ok ⟨severity, imminence, confidence, risk_features, risk_types, reasoning⟩

/-- `DomainAssessment` (types.py lines 268-300): the union of the four
variants, discriminated by the `domain` literal. `self` and
`dependent_at_risk` carry a required subtype field, `victimisation` an
optional one, and `others` none. -/
inductive DomainAssessment where
  | self (base : BaseDomainAssessment) (self_subtype : SelfSubtype)
  | others (base : BaseDomainAssessment)
  | dependent_at_risk (base : BaseDomainAssessment) (dependent_subtype : DependentSubtype)
  | victimisation (base : BaseDomainAssessment)
      (victimisation_subtype : Option VictimisationSubtype)
deriving DecidableEq, Repr

/-- The shared base fields of a domain assessment. -/
def DomainAssessment.base : DomainAssessment → BaseDomainAssessment
  | .self b _ => b
  | .others b => b
  | .dependent_at_risk b _ => b
  | .victimisation b _ => b

/-- The confidence of a domain assessment (a shared base field). -/
def DomainAssessment.confidence (d : DomainAssessment) : Rat := d.base.confidence

/-- `model_validate` against the `DomainAssessment` union: the `domain`
literal selects the variant; a value matching no variant fails with an
error naming the `domain` field and the offending value. -/
def parseDomainAssessment : Json → Except SchemaError DomainAssessment
  | .obj fields => do
    let dRaw ← decStr "domain" (lookupField fields "domain")
    match RiskDomain.ofString dRaw with
    | some .self => do
      let base ← parseBaseFields fields
      let st ← decEnum "self_subtype" SelfSubtype.ofString (lookupField fields "self_subtype")
      .ok (.self base st)
    | some .others => do
      let base ← parseBaseFields fields
      .ok (.others base)
    | some .dependent_at_risk => do
      let base ← parseBaseFields fields
      let st ← decEnum "dependent_subtype" DependentSubtype.ofString
        (lookupField fields "dependent_subtype")
      .ok (.dependent_at_risk base st)
    | some .victimisation => do
      let base ← parseBaseFields fields
      let st ← decOptEnum "victimisation_subtype" VictimisationSubtype.ofString
        (lookupField fields "victimisation_subtype")
      .ok (.victimisation base st)
    | none => .error ⟨"domain", dRaw⟩
  | _ => .error ⟨"domain", "type_error"⟩

/-- `Literal["template", "llm_generated", "llm_validated_candidate"]`. -/
inductive ReplySource where
  | template | llm_generated | llm_validated_candidate
deriving DecidableEq, Repr

def ReplySource.ofString : String → Option ReplySource
  | "template" => some .template
  | "llm_generated" => some .llm_generated
  | "llm_validated_candidate" => some .llm_validated_candidate
  | _ => none

/-- `RecommendedReply` (types.py lines 303-308). -/
structure RecommendedReply where
  content : String
  source : ReplySource
  notes : Option String
deriving DecidableEq, Repr

/-- `model_validate` for `RecommendedReply`. -/
def parseRecommendedReply : Json → Except SchemaError RecommendedReply
  | .obj fields => do
    let content ← decStr "content" (lookupField fields "content")
    let source ← decEnum "source" ReplySource.ofString (lookupField fields "source")
    let notes ← decOptStr "notes" (lookupField fields "notes")
    .ok ⟨content, source, notes⟩
  | _ => .error ⟨"recommended_reply", "type_error"⟩

/-- Parse a `ResponseIssue` array element. -/
def parseIssueElem (k : String) : Json → Except SchemaError ResponseIssue
  | .str s =>
    match ResponseIssue.ofString s with
    | some v => .ok v
    | none => .error ⟨k, s⟩
  | _ => .error ⟨k, "type_error"⟩

/-- `ProposedResponseEvaluation` (types.py lines 311-324). -/
structure ProposedResponseEvaluation where
  appropriate : Bool
  issues : List ResponseIssue
  recommendation : ResponseRecommendation
  reasoning : Option String
deriving DecidableEq, Repr

/-- `model_validate` for `ProposedResponseEvaluation`. -/
def parseProposedResponseEvaluation : Json → Except SchemaError ProposedResponseEvaluation
  | .obj fields => do
    let appropriate ← decBool "appropriate" (lookupField fields "appropriate")
    let issues ← decList "issues" (parseIssueElem "issues") (lookupField fields "issues")
    let recommendation ← decEnum "recommendation" ResponseRecommendation.ofString
      (lookupField fields "recommendation")
    let reasoning ← decOptStr "reasoning" (lookupField fields "reasoning")
    .ok ⟨appropriate, issues, recommendation, reasoning⟩
  | _ => .error ⟨"proposed_response_evaluation", "type_error"⟩

/-- `CopingRecommendation.category` literal (types.py lines 330-336). -/
inductive CopingCategory where
  | self_soothing | social_support | professional_support | safety_planning | means_safety
deriving DecidableEq, Repr

def CopingCategory.ofString : String → Option CopingCategory
  | "self_soothing" => some .self_soothing
  | "social_support" => some .social_support
  | "professional_support" => some .professional_support
  | "safety_planning" => some .safety_planning
  | "means_safety" => some .means_safety
  | _ => none

/-- `CopingRecommendation` (types.py lines 327-337). -/
structure CopingRecommendation where
  category : CopingCategory
  evidence_grade : EvidenceGrade
deriving DecidableEq, Repr

/-- `model_validate` for `CopingRecommendation`. -/
def parseCopingRecommendation : Json → Except SchemaError CopingRecommendation
  | .obj fields => do
    let category ← decEnum "category" CopingCategory.ofString (lookupField fields "category")
    let evidence_grade ← decEnum "evidence_grade" EvidenceGrade.ofString
      (lookupField fields "evidence_grade")
    .ok ⟨category, evidence_grade⟩
  | _ => .error ⟨"coping_recommendation", "type_error"⟩

/-- `Literal["unauthenticated", "authenticated", "admin"]`. -/
inductive AccessLevel where
  | unauthenticated | authenticated | admin
deriving DecidableEq, Repr

def AccessLevel.ofString : String → Option AccessLevel
  | "unauthenticated" => some .unauthenticated
  | "authenticated" => some .authenticated
  | "admin" => some .admin
  | _ => none

/-- `Literal["structured", "text_blob"]` (`ResponseMetadata.input_format`). -/
inductive InputFormat where
  | structured | text_blob
deriving DecidableEq, Repr

def InputFormat.ofString : String → Option InputFormat
  | "structured" => some .structured
  | "text_blob" => some .text_blob
  | _ => none

/-- `Literal["v1"]` (`ResponseMetadata.api_version`, default `"v1"`). -/
inductive ApiVersion where
  | v1
deriving DecidableEq, Repr

def ApiVersion.ofString : String → Option ApiVersion
  | "v1" => some .v1
  | _ => none

/-- Decode `api_version: Literal["v1"] = "v1"`: absent means the default. -/
def decApiVersion : Option Json → Except SchemaError ApiVersion
  | some (.str s) =>
    match ApiVersion.ofString s with
    | some v => .ok v
    | none => .error ⟨"api_version", s⟩
  | some _ => .error ⟨"api_version", "type_error"⟩
  | none => .ok .v1

/-- `ResponseMetadata` (types.py lines 340-350). -/
structure ResponseMetadata where
  access_level : Option AccessLevel
  is_admin : Option Bool
  messages_truncated : Option Bool
  messages_original_count : Option Int
  messages_kept_count : Option Int
  features_available : Option (List String)
  input_format : Option InputFormat
  api_version : ApiVersion
deriving DecidableEq, Repr

/-- `model_validate` for `ResponseMetadata`. -/
def parseResponseMetadata : Json → Except SchemaError ResponseMetadata
  | .obj fields => do
    let access_level ← decOptEnum "access_level" AccessLevel.ofString
      (lookupField fields "access_level")
    let is_admin ← decOptBool "is_admin" (lookupField fields "is_admin")
    let messages_truncated ← decOptBool "messages_truncated"
      (lookupField fields "messages_truncated")
    let messages_original_count ← decOptInt "messages_original_count"
      (lookupField fields "messages_original_count")
    let messages_kept_count ← decOptInt "messages_kept_count"
      (lookupField fields "messages_kept_count")
    let features_available ← decOptStrList "features_available"
      (lookupField fields "features_available")
    let input_format ← decOptEnum "input_format" InputFormat.ofString
      (lookupField fields "input_format")
    let api_version ← decApiVersion (lookupField fields "api_version")
    .ok ⟨access_level, is_admin, messages_truncated, messages_original_count,
         messages_kept_count, features_available, input_format, api_version⟩
  | _ => .error ⟨"metadata", "type_error"⟩

/-- `EvaluateResponse` (types.py lines 353-398): the top-level aggregate.
`confidence` carries `Field(ge=0.0, le=1.0)`; `global_` is populated from
the alias `"global"` (or, with `populate_by_name`, the field name). -/
structure EvaluateResponse where
  domains : List DomainAssessment
  global_ : GlobalAssessment
  legal_flags : Option LegalFlags
  presentation_modifiers : Option PresentationModifiers
  safeguarding_flags : Option SafeguardingFlags
  protective_factors_info : Option ProtectiveFactorsInfo
  confidence : Rat
  agreement : Option Rat
  crisis_resources : List CrisisResource
  widget_url : Option String
  recommended_reply : Option RecommendedReply
  proposed_response_evaluation : Option ProposedResponseEvaluation
  coping_recommendations : Option (List CopingRecommendation)
  metadata : Option ResponseMetadata
deriving DecidableEq, Repr

/-- The top-level keys `EvaluateResponse` validation reads: every other key
of a raw response object is ignored (pydantic default `extra="ignore"`). -/
def responseKeys : List String :=
  ["domains", "global", "global_", "legal_flags", "presentation_modifiers",
   "safeguarding_flags", "protective_factors_info", "confidence", "agreement",
   "crisis_resources", "widget_url", "recommended_reply",
   "proposed_response_evaluation", "coping_recommendations", "metadata"]

/-- `model_validate` for `EvaluateResponse`. Unrecognized keys are never
consulted, so they are ignored rather than rejected. -/
def parseEvaluateResponse : Json → Except SchemaError EvaluateResponse
  | .obj fields => do
    let domains ← decList "domains" parseDomainAssessment (lookupField fields "domains")
    let global_ ← decModel "global" parseGlobalAssessment
      ((lookupField fields "global").orElse fun _ => lookupField fields "global_")
    let legal_flags ← decOptModel parseLegalFlags (lookupField fields "legal_flags")
    let presentation_modifiers ← decOptModel parsePresentationModifiers
      (lookupField fields "presentation_modifiers")
    let safeguarding_flags ← decOptModel parseSafeguardingFlags
      (lookupField fields "safeguarding_flags")
    let protective_factors_info ← decOptModel parseProtectiveFactorsInfo
      (lookupField fields "protective_factors_info")
    let confidence ← decUnitNum "confidence" (lookupField fields "confidence")
    let agreement ← decOptNum "agreement" (lookupField fields "agreement")
    let crisis_resources ← decList "crisis_resources" parseCrisisResource
      (lookupField fields "crisis_resources")
    let widget_url ← decOptStr "widget_url" (lookupField fields "widget_url")
    let recommended_reply ← decOptModel parseRecommendedReply
      (lookupField fields "recommended_reply")
    let proposed_response_evaluation ← decOptModel parseProposedResponseEvaluation
      (lookupField fields "proposed_response_evaluation")
    let coping_recommendations ← decOptList "coping_recommendations"
      parseCopingRecommendation (lookupField fields "coping_recommendations")
    let metadata ← decOptModel parseResponseMetadata (lookupField fields "metadata")
    .ok ⟨domains, global_, legal_flags, presentation_modifiers, safeguarding_flags,
         protective_factors_info, confidence, agreement, crisis_resources, widget_url,
         recommended_reply, proposed_response_evaluation, coping_recommendations, metadata⟩
  | _ => .error ⟨"response", "type_error"⟩

-- =========================================================================
-- Inversion lemmas for the field decoders
-- =========================================================================

theorem riskDomain_ofString_eq_none (s : String) (hs : s ∉ riskDomainStrings) :
    RiskDomain.ofString s = none := by
  unfold RiskDomain.ofString
  split <;> simp_all [riskDomainStrings]

theorem severity_ofString_mem (s : String) (v : Severity)
    (h : Severity.ofString s = some v) : s ∈ severityStrings := by
  unfold Severity.ofString at h
  split at h <;> simp_all [severityStrings]

theorem imminence_ofString_mem (s : String) (v : Imminence)
    (h : Imminence.ofString s = some v) : s ∈ imminenceStrings := by
  unfold Imminence.ofString at h
  split at h <;> simp_all [imminenceStrings]

theorem decEnum_ok {α : Type} {k : String} {ofStr : String → Option α} {o : Option Json}
    {v : α} (h : decEnum k ofStr o = .ok v) : ∃ s, o = some (.str s) ∧ ofStr s = some v := by
  match o with
  | none => simp [decEnum] at h
  | some .null | some (.bool _) | some (.num _) | some (.arr _) | some (.obj _) =>
    simp [decEnum] at h
  | some (.str s) =>
    refine ⟨s, rfl, ?_⟩
    have h2 : (match ofStr s with
        | some w => (Except.ok w : Except SchemaError α)
        | none => Except.error ⟨k, s⟩) = Except.ok v := h
    cases hos : ofStr s with
    | none =>
      rw [hos] at h2
      exact Except.noConfusion h2
    | some w =>
      rw [hos] at h2
      cases h2
      rfl

theorem decUnitNum_ok {k : String} {o : Option Json} {c : Rat}
    (h : decUnitNum k o = .ok c) : o = some (.num c) ∧ 0 ≤ c ∧ c ≤ 1 := by
  rcases o with _ | j
  · exact Except.noConfusion h
  · rcases j with _ | b | q | t | a | fs
    · exact Except.noConfusion h
    · exact Except.noConfusion h
    · by_cases hr : 0 ≤ q ∧ q ≤ 1
      · have hq : decUnitNum k (some (.num q)) = .ok q := by simp [decUnitNum, hr]
        rw [hq] at h
        cases h
        exact ⟨rfl, hr⟩
      · have hq : decUnitNum k (some (.num q)) = .error ⟨k, "out_of_range"⟩ := by
          simp [decUnitNum, hr]
        rw [hq] at h
        exact Except.noConfusion h
    · exact Except.noConfusion h
    · exact Except.noConfusion h
    · exact Except.noConfusion h

theorem decList_ok {α : Type} {k : String} {p : Json → Except SchemaError α}
    {o : Option Json} {xs : List α} (h : decList k p o = .ok xs) :
    ∃ js, o = some (.arr js) ∧ parseList p js = .ok xs := by
  match o with
  | none => simp [decList] at h
  | some .null | some (.bool _) | some (.num _) | some (.str _) | some (.obj _) =>
    simp [decList] at h
  | some (.arr js) => exact ⟨js, rfl, h⟩

theorem parseList_mem {α : Type} {p : Json → Except SchemaError α} :
    ∀ {js : List Json} {xs : List α}, parseList p js = .ok xs →
      ∀ x ∈ xs, ∃ j, p j = .ok x := by
  intro js
  induction js with
  | nil =>
    intro xs h x hx
    simp only [parseList] at h
    cases h
    simp at hx
  | cons j js ih =>
    intro xs h x hx
    unfold parseList at h
    cases h1 : p j with
    | error e =>
      simp only [h1, eerr_bind] at h
      exact Except.noConfusion h
    | ok y =>
      simp only [h1, eok_bind] at h
      cases h2 : parseList p js with
      | error e =>
        simp only [h2, eerr_bind] at h
        exact Except.noConfusion h
      | ok ys =>
        simp only [h2, eok_bind] at h
        cases h
        rcases List.mem_cons.mp hx with hxy | hxs
        · exact ⟨j, hxy ▸ h1⟩
        · exact ih h2 x hxs

/-- Inversion for `parseBaseFields`: a successful parse pins the raw
`severity`, `imminence` and `confidence` fields and forces the confidence
range constraint. -/
theorem parseBaseFields_ok {fields : List (String × Json)} {b : BaseDomainAssessment}
    (h : parseBaseFields fields = .ok b) :
    (∃ s, lookupField fields "severity" = some (.str s) ∧
       Severity.ofString s = some b.severity) ∧
    (∃ s, lookupField fields "imminence" = some (.str s) ∧
       Imminence.ofString s = some b.imminence) ∧
    lookupField fields "confidence" = some (.num b.confidence) ∧
    0 ≤ b.confidence ∧ b.confidence ≤ 1 := by
  unfold parseBaseFields at h
  cases h1 : decEnum "severity" Severity.ofString (lookupField fields "severity") with
  | error e =>
    simp only [h1, eerr_bind] at h
    exact Except.noConfusion h
  | ok severity =>
    simp only [h1, eok_bind] at h
    cases h2 : decEnum "imminence" Imminence.ofString (lookupField fields "imminence") with
    | error e =>
      simp only [h2, eerr_bind] at h
      exact Except.noConfusion h
    | ok imminence =>
      simp only [h2, eok_bind] at h
      cases h3 : decUnitNum "confidence" (lookupField fields "confidence") with
      | error e =>
        simp only [h3, eerr_bind] at h
        exact Except.noConfusion h
      | ok confidence =>
        simp only [h3, eok_bind] at h
        cases h4 : decStrList "risk_features" (lookupField fields "risk_features") with
        | error e =>
          simp only [h4, eerr_bind] at h
          exact Except.noConfusion h
        | ok risk_features =>
          simp only [h4, eok_bind] at h
          cases h5 : decOptStrList "risk_types" (lookupField fields "risk_types") with
          | error e =>
            simp only [h5, eerr_bind] at h
            exact Except.noConfusion h
          | ok risk_types =>
            simp only [h5, eok_bind] at h
            cases h6 : decOptStr "reasoning" (lookupField fields "reasoning") with
            | error e =>
              simp only [h6, eerr_bind] at h
              exact Except.noConfusion h
            | ok reasoning =>
              simp only [h6, eok_bind] at h
              cases h
              obtain ⟨s1, hs1, hos1⟩ := decEnum_ok h1
              obtain ⟨s2, hs2, hos2⟩ := decEnum_ok h2
              obtain ⟨hc, hc0, hc1⟩ := decUnitNum_ok h3
              exact ⟨⟨s1, hs1, hos1⟩, ⟨s2, hs2, hos2⟩, hc, hc0, hc1⟩

/-- Inversion for `parseDomainAssessment`: a successful parse validated the
shared base fields of the same object. -/
theorem parseDomainAssessment_ok {j : Json} {d : DomainAssessment}
    (h : parseDomainAssessment j = .ok d) :
    ∃ fields, j = .obj fields ∧ parseBaseFields fields = .ok d.base := by
  match j with
  | .null | .bool _ | .num _ | .str _ | .arr _ => simp [parseDomainAssessment] at h
  | .obj fields =>
    refine ⟨fields, rfl, ?_⟩
    unfold parseDomainAssessment at h
    cases h1 : decStr "domain" (lookupField fields "domain") with
    | error e =>
      simp only [h1, eerr_bind] at h
      exact Except.noConfusion h
    | ok dRaw =>
      simp only [h1, eok_bind] at h
      cases hrd : RiskDomain.ofString dRaw with
      | none =>
        simp only [hrd] at h
        exact Except.noConfusion h
      | some rd =>
        cases rd with
        | self =>
          simp only [hrd] at h
          cases h2 : parseBaseFields fields with
          | error e =>
        simp only [h2, eerr_bind] at h
        exact Except.noConfusion h
          | ok base =>
            simp only [h2, eok_bind] at h
            cases h3 : decEnum "self_subtype" SelfSubtype.ofString
                (lookupField fields "self_subtype") with
            | error e =>
          simp only [h3, eerr_bind] at h
          exact Except.noConfusion h
            | ok st =>
              simp only [h3, eok_bind] at h
              cases h
              rfl
        | others =>
          simp only [hrd] at h
          cases h2 : parseBaseFields fields with
          | error e =>
        simp only [h2, eerr_bind] at h
        exact Except.noConfusion h
          | ok base =>
            simp only [h2, eok_bind] at h
            cases h
            rfl
        | dependent_at_risk =>
          simp only [hrd] at h
          cases h2 : parseBaseFields fields with
          | error e =>
        simp only [h2, eerr_bind] at h
        exact Except.noConfusion h
          | ok base =>
            simp only [h2, eok_bind] at h
            cases h3 : decEnum "dependent_subtype" DependentSubtype.ofString
                (lookupField fields "dependent_subtype") with
            | error e =>
          simp only [h3, eerr_bind] at h
          exact Except.noConfusion h
            | ok st =>
              simp only [h3, eok_bind] at h
              cases h
              rfl
        | victimisation =>
          simp only [hrd] at h
          cases h2 : parseBaseFields fields with
          | error e =>
        simp only [h2, eerr_bind] at h
        exact Except.noConfusion h
          | ok base =>
            simp only [h2, eok_bind] at h
            cases h3 : decOptEnum "victimisation_subtype" VictimisationSubtype.ofString
                (lookupField fields "victimisation_subtype") with
            | error e =>
          simp only [h3, eerr_bind] at h
          exact Except.noConfusion h
            | ok st =>
              simp only [h3, eok_bind] at h
              cases h
              rfl

-- =========================================================================
-- C3: unknown discriminant value fails naming the field and the value
-- =========================================================================

/-- C3: for every raw domain-assessment object whose `domain` field holds a
string outside the four known variants, parsing fails with a schema error
naming the `domain` field and the offending value. -/
theorem domainAssessment_unknown_discriminant (fields : List (String × Json)) (s : String)
    (hd : lookupField fields "domain" = some (.str s))
    (hs : s ∉ riskDomainStrings) :
    parseDomainAssessment (.obj fields) = .error ⟨"domain", s⟩ := by
  unfold parseDomainAssessment
  simp only [hd, decStr, eok_bind]
  rw [riskDomain_ofString_eq_none s hs]

/-- Witness for C3 at the unknown discriminant `"world"`. -/
theorem domainAssessment_unknown_discriminant_witness :
    parseDomainAssessment (.obj [("domain", .str "world")]) = .error ⟨"domain", "world"⟩ :=
  domainAssessment_unknown_discriminant [("domain", .str "world")] "world" rfl (by decide)

-- =========================================================================
-- C4: the subtype fields are NOT all optional (corrected)
-- =========================================================================

/-- A raw domain-assessment object with valid base fields, the given
discriminant, and the given extra fields. -/
def mkDomainRaw (d : String) (extra : List (String × Json)) : Json :=
  .obj ([("domain", .str d), ("severity", .str "none"),
         ("imminence", .str "not_applicable"), ("confidence", .num 1),
         ("risk_features", .arr [])] ++ extra)

/-- The base fields every `mkDomainRaw` object parses to. -/
def baseNone : BaseDomainAssessment := ⟨.none, .not_applicable, 1, [], none, none⟩

/-- C4 counterexample: a raw input with the correct discriminant `"self"`
and no subtype field does NOT parse — `self_subtype` is a required field of
`SelfDomainAssessment`, so the claim that every variant's subtype field is
optional fails on this input. -/
theorem selfDomain_missing_subtype_rejected :
    parseDomainAssessment (mkDomainRaw "self" []) = .error ⟨"self_subtype", "missing"⟩ := by
  rfl

/-- C4 amended: `self` and `dependent_at_risk` each add exactly one REQUIRED
subtype field (raw input with the correct discriminant but no subtype field
is rejected); `victimisation` adds exactly one optional subtype field (it
parses without it); `others` adds no subtype field at all. -/
theorem domainAssessment_subtype_fields :
    parseDomainAssessment (mkDomainRaw "victimisation" []) =
      .ok (.victimisation baseNone none) ∧
    parseDomainAssessment (mkDomainRaw "victimisation"
        [("victimisation_subtype", .str "other")]) =
      .ok (.victimisation baseNone (some .other)) ∧
    parseDomainAssessment (mkDomainRaw "others" []) = .ok (.others baseNone) ∧
    parseDomainAssessment (mkDomainRaw "self" [("self_subtype", .str "other")]) =
      .ok (.self baseNone .other) ∧
    parseDomainAssessment (mkDomainRaw "self" [("severity", .str "high")]) =
      .error ⟨"self_subtype", "missing"⟩ ∧
    parseDomainAssessment (mkDomainRaw "dependent_at_risk" []) =
      .error ⟨"dependent_subtype", "missing"⟩ ∧
    parseDomainAssessment (mkDomainRaw "dependent_at_risk"
        [("dependent_subtype", .str "child")]) =
      .ok (.dependent_at_risk baseNone .child) := by
  refine ⟨rfl, rfl, rfl, rfl, rfl, rfl, rfl⟩

-- =========================================================================
-- C5: range and enumeration invariants
-- =========================================================================

/-- Eliminating a successful `Except` bind. -/
theorem bind_ok_elim {ε α β : Type} {m : Except ε α} {f : α → Except ε β} {b : β}
    (h : m >>= f = .ok b) : ∃ a, m = .ok a ∧ f a = .ok b := by
  cases m with
  | error e =>
    simp only [eerr_bind] at h
    exact Except.noConfusion h
  | ok a => exact ⟨a, rfl, by simpa [eok_bind] using h⟩

/-- Inversion for `parseEvaluateResponse`: a successful parse validated the
`domains` list and the range-constrained `confidence` field. -/
theorem parseEvaluateResponse_ok {j : Json} {r : EvaluateResponse}
    (h : parseEvaluateResponse j = .ok r) :
    ∃ fields, j = .obj fields ∧
      decList "domains" parseDomainAssessment (lookupField fields "domains") = .ok r.domains ∧
      decUnitNum "confidence" (lookupField fields "confidence") = .ok r.confidence := by
  match j with
  | .null | .bool _ | .num _ | .str _ | .arr _ => simp [parseEvaluateResponse] at h
  | .obj fields =>
    refine ⟨fields, rfl, ?_⟩
    unfold parseEvaluateResponse at h
    obtain ⟨domains, h1, h⟩ := bind_ok_elim h
    obtain ⟨g, h2, h⟩ := bind_ok_elim h
    obtain ⟨lf, h3, h⟩ := bind_ok_elim h
    obtain ⟨pm, h4, h⟩ := bind_ok_elim h
    obtain ⟨sf, h5, h⟩ := bind_ok_elim h
    obtain ⟨pf, h6, h⟩ := bind_ok_elim h
    obtain ⟨confidence, h7, h⟩ := bind_ok_elim h
    obtain ⟨ag, h8, h⟩ := bind_ok_elim h
    obtain ⟨cr, h9, h⟩ := bind_ok_elim h
    obtain ⟨wu, h10, h⟩ := bind_ok_elim h
    obtain ⟨rr, h11, h⟩ := bind_ok_elim h
    obtain ⟨pre, h12, h⟩ := bind_ok_elim h
    obtain ⟨cop, h13, h⟩ := bind_ok_elim h
    obtain ⟨md, h14, h⟩ := bind_ok_elim h
    cases h
    exact ⟨h1, h7⟩

/-- Every successfully parsed domain assessment has confidence in [0,1]. -/
theorem parseDomainAssessment_confidence {j : Json} {d : DomainAssessment}
    (h : parseDomainAssessment j = .ok d) :
    0 ≤ d.confidence ∧ d.confidence ≤ 1 := by
  obtain ⟨fields, -, hb⟩ := parseDomainAssessment_ok h
  obtain ⟨-, -, -, hc0, hc1⟩ := parseBaseFields_ok hb
  exact ⟨hc0, hc1⟩

/-- C5: invariants of successfully constructed values — the response-level
and domain-level `confidence` fields lie in [0,1], every severity/imminence
string accepted by validation lies in its fixed five-element enumeration,
and raw input with an unenumerated severity/imminence or an out-of-range
confidence is rejected at construction. -/
theorem confidence_and_enum_invariants :
    (∀ j r, parseEvaluateResponse j = .ok r →
      (0 ≤ r.confidence ∧ r.confidence ≤ 1) ∧
        ∀ d ∈ r.domains, 0 ≤ d.confidence ∧ d.confidence ≤ 1) ∧
    (∀ j d, parseDomainAssessment j = .ok d →
      0 ≤ d.confidence ∧ d.confidence ≤ 1) ∧
    (∀ s v, Severity.ofString s = some v → s ∈ severityStrings) ∧
    (∀ s v, Imminence.ofString s = some v → s ∈ imminenceStrings) ∧
    (∀ fields s, lookupField fields "severity" = some (.str s) → s ∉ severityStrings →
      ∀ d, parseDomainAssessment (.obj fields) ≠ .ok d) ∧
    (∀ fields s, lookupField fields "imminence" = some (.str s) → s ∉ imminenceStrings →
      ∀ d, parseDomainAssessment (.obj fields) ≠ .ok d) ∧
    (∀ fields c, lookupField fields "confidence" = some (.num c) → ¬(0 ≤ c ∧ c ≤ 1) →
      ∀ d, parseDomainAssessment (.obj fields) ≠ .ok d) ∧
    (∀ fields c, lookupField fields "confidence" = some (.num c) → ¬(0 ≤ c ∧ c ≤ 1) →
      ∀ r, parseEvaluateResponse (.obj fields) ≠ .ok r) := by
  refine ⟨?_, ?_, severity_ofString_mem, imminence_ofString_mem, ?_, ?_, ?_, ?_⟩
  · intro j r h
    obtain ⟨fields, -, hd, hc⟩ := parseEvaluateResponse_ok h
    obtain ⟨-, hc0, hc1⟩ := decUnitNum_ok hc
    refine ⟨⟨hc0, hc1⟩, ?_⟩
    intro d hdmem
    obtain ⟨js, -, hl⟩ := decList_ok hd
    obtain ⟨jd, hjd⟩ := parseList_mem hl d hdmem
    exact parseDomainAssessment_confidence hjd
  · intro j d h
    exact parseDomainAssessment_confidence h
  · intro fields s hlook hmem d h
    obtain ⟨fields', hobj, hb⟩ := parseDomainAssessment_ok h
    cases hobj
    obtain ⟨⟨s', hs', hos'⟩, -, -, -, -⟩ := parseBaseFields_ok hb
    rw [hlook] at hs'
    cases hs'
    exact hmem (severity_ofString_mem _ _ hos')
  · intro fields s hlook hmem d h
    obtain ⟨fields', hobj, hb⟩ := parseDomainAssessment_ok h
    cases hobj
    obtain ⟨-, ⟨s', hs', hos'⟩, -, -, -⟩ := parseBaseFields_ok hb
    rw [hlook] at hs'
    cases hs'
    exact hmem (imminence_ofString_mem _ _ hos')
  · intro fields c hlook hrange d h
    obtain ⟨fields', hobj, hb⟩ := parseDomainAssessment_ok h
    cases hobj
    obtain ⟨-, -, hc, hc0, hc1⟩ := parseBaseFields_ok hb
    rw [hlook] at hc
    cases hc
    exact hrange ⟨hc0, hc1⟩
  · intro fields c hlook hrange r h
    obtain ⟨fields', hobj, -, hc⟩ := parseEvaluateResponse_ok h
    cases hobj
    obtain ⟨hc', hc0, hc1⟩ := decUnitNum_ok hc
    rw [hlook] at hc'
    cases hc'
    exact hrange ⟨hc0, hc1⟩

/-- Witness for C5 on a concrete well-formed domain assessment. -/
theorem confidence_and_enum_invariants_witness :
    0 ≤ (DomainAssessment.others baseNone).confidence ∧
    (DomainAssessment.others baseNone).confidence ≤ 1 :=
  confidence_and_enum_invariants.2.1 (mkDomainRaw "others" [])
    (DomainAssessment.others baseNone) rfl

-- =========================================================================
-- C6: unknown top-level keys are ignored (forward compatibility)
-- =========================================================================

theorem lookupField_eq_none {es : List (String × Json)} {k : String}
    (h : ∀ p ∈ es, ¬p.1 = k) : lookupField es k = none := by
  induction es with
  | nil => rfl
  | cons p rest ih =>
    obtain ⟨k', v⟩ := p
    have hne : ¬(k' == k) = true := by
      simp only [beq_iff_eq]
      exact h (k', v) (List.mem_cons_self _ _)
    unfold lookupField
    rw [if_neg hne]
    exact ih fun p hp => h p (List.mem_cons_of_mem _ hp)

theorem lookupField_append {fs es : List (String × Json)} {k : String}
    (h : ∀ p ∈ es, ¬p.1 = k) :
    lookupField (fs ++ es) k = lookupField fs k := by
  induction fs with
  | nil => simpa using lookupField_eq_none h
  | cons p fsr ih =>
    obtain ⟨k', v⟩ := p
    by_cases hk : (k' == k) = true
    · simp [lookupField, hk]
    · simp [lookupField, hk, ih]

/-- C6: appending arbitrary unrecognized keys to a raw response object that
parses successfully leaves the parse result unchanged — unknown fields are
ignored, never rejected. -/
theorem evaluateResponse_ignores_unknown_keys (fs es : List (String × Json))
    (r : EvaluateResponse) (hdis : ∀ p ∈ es, p.1 ∉ responseKeys)
    (h : parseEvaluateResponse (.obj fs) = .ok r) :
    parseEvaluateResponse (.obj (fs ++ es)) = .ok r := by
  have key : ∀ k, k ∈ responseKeys → lookupField (fs ++ es) k = lookupField fs k :=
    fun k hk => lookupField_append fun p hp hpk => hdis p hp (hpk ▸ hk)
  unfold parseEvaluateResponse
  simp only [key "domains" (by simp [responseKeys]),
    key "global" (by simp [responseKeys]),
    key "global_" (by simp [responseKeys]),
    key "legal_flags" (by simp [responseKeys]),
    key "presentation_modifiers" (by simp [responseKeys]),
    key "safeguarding_flags" (by simp [responseKeys]),
    key "protective_factors_info" (by simp [responseKeys]),
    key "confidence" (by simp [responseKeys]),
    key "agreement" (by simp [responseKeys]),
    key "crisis_resources" (by simp [responseKeys]),
    key "widget_url" (by simp [responseKeys]),
    key "recommended_reply" (by simp [responseKeys]),
    key "proposed_response_evaluation" (by simp [responseKeys]),
    key "coping_recommendations" (by simp [responseKeys]),
    key "metadata" (by simp [responseKeys])]
  unfold parseEvaluateResponse at h
  exact h

/-- A minimal valid raw `global` object. -/
def minimalGlobalJson : Json :=
  .obj [("overall_severity", .str "none"), ("overall_imminence", .str "not_applicable"),
        ("primary_concerns", .arr [])]

/-- A minimal valid raw response: `domains: []`, required aggregates only. -/
def minimalResponseFields : List (String × Json) :=
  [("domains", .arr []), ("global", minimalGlobalJson), ("confidence", .num 1),
   ("crisis_resources", .arr [])]

/-- The parsed form of `minimalResponseFields`: empty domains, `none` for
every optional aggregate field. -/
def minimalResponse : EvaluateResponse :=
  ⟨[], ⟨.none, .not_applicable, [], none, none⟩, none, none, none, none, 1, none, [],
   none, none, none, none, none⟩

/-- Witness for C6: a concrete response with a server-added unknown key
parses to the same value as without it. -/
theorem evaluateResponse_ignores_unknown_keys_witness :
    parseEvaluateResponse
      (.obj (minimalResponseFields ++ [("server_extra", .str "surprise")])) =
    .ok minimalResponse :=
  evaluateResponse_ignores_unknown_keys minimalResponseFields
    [("server_extra", .str "surprise")] minimalResponse (by decide) rfl

-- =========================================================================
-- C9: empty domains and absent optional aggregates parse successfully
-- =========================================================================

/-- C9: a raw response with `domains: []`, valid required aggregates
(`global`, `confidence`, `crisis_resources`) and every optional aggregate
field absent parses successfully, yielding an empty domains list and `none`
for every absent optional field. -/
theorem emptyDomains_absent_optionals_parse (jg : Json) (g : GlobalAssessment) (c : Rat)
    (jr : List Json) (rs : List CrisisResource)
    (hg : parseGlobalAssessment jg = .ok g)
    (hc : 0 ≤ c ∧ c ≤ 1)
    (hr : parseList parseCrisisResource jr = .ok rs) :
    parseEvaluateResponse (.obj [("domains", .arr []), ("global", jg),
        ("confidence", .num c), ("crisis_resources", .arr jr)]) =
      .ok ⟨[], g, none, none, none, none, c, none, rs, none, none, none, none, none⟩ := by
  unfold parseEvaluateResponse
  simp [lookupField, decList, decModel, decOptModel, decOptStr, decOptNum, decOptList,
    decUnitNum, parseList, Option.orElse, hg, hr, hc, eok_bind]

/-- Witness for C9 on the minimal concrete response. -/
theorem emptyDomains_absent_optionals_parse_witness :
    parseEvaluateResponse (.obj [("domains", .arr []), ("global", minimalGlobalJson),
        ("confidence", .num 1), ("crisis_resources", .arr [])]) =
      .ok minimalResponse :=
  emptyDomains_absent_optionals_parse minimalGlobalJson
    ⟨.none, .not_applicable, [], none, none⟩ 1 [] [] rfl (by norm_num) rfl

-- =========================================================================
-- Client facade and transport (spec-modelled: `client.py`/`errors.py` are
-- not in the repository snapshot, only their tests and re-exports)
-- =========================================================================

/-- Modelled from the spec: the error taxonomy of the missing `errors.py` —
local input errors, schema (decode) failures, HTTP-derived errors carrying
the numeric status code, rate-limit errors additionally carrying
`retry_after`, and connection failures with no status code. -/
inductive NopeError where
  | localInputError (msg : String)
  | schemaError (e : SchemaError)
  | authError (status : Nat)
  | validationError (status : Nat)
  | rateLimitError (status : Nat) (retry_after : Option Nat)
  | serverError (status : Nat)
  | connectionError
  | apiError (status : Nat)
deriving DecidableEq, Repr

/-- The numeric HTTP status carried by an error (`none` for errors not
derived from an HTTP status). -/
def NopeError.statusCode : NopeError → Option Nat
  | .authError s => some s
  | .validationError s => some s
  | .rateLimitError s _ => some s
  | .serverError s => some s
  | .apiError s => some s
  | _ => none

/-- Modelled from the spec: the observable outcome of one HTTP exchange —
either a response with a status code, an optional `Retry-After` header and
a body, or a connection failure (timeout/DNS/reset). -/
inductive HttpOutcome where
  | response (status : Nat) (retryAfterHeader : Option String) (body : Json)
  | networkFailure

/-- Modelled from the spec: digit-string accumulator for `int(...)` on a
header value. -/
def digitsToNatAux : List Char → Nat → Option Nat
  | [], acc => some acc
  | c :: cs, acc =>
    if c.isDigit then digitsToNatAux cs (acc * 10 + (c.toNat - Char.toNat '0')) else none

/-- Modelled from the spec: `int(...)` on a decimal digit string. -/
def strToNat? (s : String) : Option Nat :=
  match s.data with
  | [] => none
  | cs => digitsToNatAux cs 0

/-- Modelled from the spec: the `Retry-After` header value parsed as integer
seconds; an absent (or non-numeric) header yields `none`. -/
def parseRetryAfter (h : Option String) : Option Nat := h.bind strToNat?

/-- Modelled from the spec: classification of an HTTP outcome by the missing
transport layer of `client.py` — 2xx parses the body through the schema
layer, 401/403 fails with AuthError, 400/422 with ValidationError, 429 with
RateLimitError carrying `retry_after`, 5xx with ServerError, connection
failure with ConnectionError. -/
def handleOutcome : HttpOutcome → Except NopeError EvaluateResponse
  | .networkFailure => .error .connectionError
  | .response status retryAfterHeader body =>
    if 200 ≤ status ∧ status ≤ 299 then
      match parseEvaluateResponse body with
      | .ok r => .ok r
      | .error e => .error (.schemaError e)
    else if status = 401 ∨ status = 403 then .error (.authError status)
    else if status = 400 ∨ status = 422 then .error (.validationError status)
    else if status = 429 then
      .error (.rateLimitError status (parseRetryAfter retryAfterHeader))
    else if 500 ≤ status ∧ status ≤ 599 then .error (.serverError status)
    else .error (.apiError status)

/-- Modelled from the spec: the client configuration held by both client
variants — optional api key, normalized base URL, timeout in seconds. -/
structure Client where
  api_key : Option String
  base_url : String
  timeout : Rat
deriving DecidableEq, Repr

/-- Modelled from the spec: a trailing slash on the configured base URL is
stripped at client construction. -/
def stripTrailingSlash (s : String) : String :=
  if s.data.getLast? = some '/' then ⟨s.data.dropLast⟩ else s

/-- Modelled from the spec: the client constructor — defaults
`base_url = "https://api.nope.net"` and `timeout = 30.0`, trailing slash
stripped from the base URL. -/
def mkClient (api_key : Option String) (base_url : Option String) (timeout : Option Rat) :
    Client :=
  ⟨api_key, stripTrailingSlash (base_url.getD "https://api.nope.net"), timeout.getD 30⟩

/-- Modelled from the spec: requests target `{base_url}/v1/evaluate`. -/
def Client.evaluateUrl (c : Client) : String := c.base_url ++ "/v1/evaluate"

/-- Modelled from the spec: the shared `evaluate` flow of both client
variants. The exclusivity precondition is checked BEFORE any network I/O:
with both or neither of `messages`/`text` the call fails with a local input
error (ValueError) and the transport (`net`) is never invoked. Otherwise
the request is built and the transport outcome is classified. The boolean
records whether the transport was invoked. -/
def evaluateCore (c : Client) (messages : Option (List Message)) (text : Option String)
    (config : Option EvaluateConfig) (user_context : Option String)
    (proposed_response : Option String) (net : String → EvaluateRequest → HttpOutcome) :
    Except NopeError EvaluateResponse × Bool :=
  match messages, text with
  | none, none =>
    (.error (.localInputError "Either messages or text must be provided"), false)
  | some _, some _ =>
    (.error (.localInputError "Only one of messages or text may be provided"), false)
  | _, _ =>
    let req : EvaluateRequest :=
      ⟨messages, text, config.getD defaultEvaluateConfig, user_context, proposed_response⟩
    (handleOutcome (net c.evaluateUrl req), true)

/-- Modelled from the spec: the blocking client's `evaluate` — identical
validation, payload-building and error-mapping logic as the non-blocking
variant. -/
def NopeClient.evaluate := @evaluateCore

/-- Modelled from the spec: the non-blocking client's `evaluate` — same
shared core; only the suspension behaviour (out of scope here) differs. -/
def AsyncNopeClient.evaluate := @evaluateCore

-- =========================================================================
-- C1: exclusivity is checked before any network I/O, on both variants
-- =========================================================================

/-- C1: on either client variant, calling `evaluate` with both or with
neither of `messages`/`text` fails with a local input error raised before
any network I/O: the transport is never invoked. -/
theorem evaluate_exclusivity_precondition (c : Client) (messages : Option (List Message))
    (text : Option String) (config : Option EvaluateConfig) (uc pr : Option String)
    (net : String → EvaluateRequest → HttpOutcome) (h : messages.isSome = text.isSome) :
    (∃ m, (NopeClient.evaluate c messages text config uc pr net).1 =
      .error (.localInputError m)) ∧
    (NopeClient.evaluate c messages text config uc pr net).2 = false ∧
    NopeClient.evaluate c messages text config uc pr net =
      AsyncNopeClient.evaluate c messages text config uc pr net := by
  cases messages with
  | none =>
    cases text with
    | none => exact ⟨⟨_, rfl⟩, rfl, rfl⟩
    | some t => simp at h
  | some ms =>
    cases text with
    | none => simp at h
    | some t => exact ⟨⟨_, rfl⟩, rfl, rfl⟩

/-- Witness for C1: the neither-provided call on a concrete client. -/
theorem evaluate_exclusivity_precondition_witness :
    (∃ m, (NopeClient.evaluate (mkClient none none none) none none none none none
      (fun _ _ => .networkFailure)).1 = .error (.localInputError m)) ∧
    (NopeClient.evaluate (mkClient none none none) none none none none none
      (fun _ _ => .networkFailure)).2 = false ∧
    NopeClient.evaluate (mkClient none none none) none none none none none
        (fun _ _ => .networkFailure) =
      AsyncNopeClient.evaluate (mkClient none none none) none none none none none
        (fun _ _ => .networkFailure) :=
  evaluate_exclusivity_precondition (mkClient none none none) none none none none none
    (fun _ _ => .networkFailure) rfl

-- =========================================================================
-- C2: total and exact status-code → error-type mapping
-- =========================================================================

/-- C2: the status-code → error-type mapping is total and exact — 401/403
raise AuthError, 400/422 ValidationError, 429 RateLimitError with
`retry_after` parsed from the `Retry-After` header (absent header gives
`none`), every 5xx ServerError, network failure ConnectionError; every
HTTP-derived error carries the numeric status code; and `evaluate` with
valid input classifies the transport outcome exactly this way. -/
theorem evaluate_status_error_mapping :
    (∀ hdr b, handleOutcome (.response 401 hdr b) = .error (.authError 401)) ∧
    (∀ hdr b, handleOutcome (.response 403 hdr b) = .error (.authError 403)) ∧
    (∀ hdr b, handleOutcome (.response 400 hdr b) = .error (.validationError 400)) ∧
    (∀ hdr b, handleOutcome (.response 422 hdr b) = .error (.validationError 422)) ∧
    (∀ hdr b, handleOutcome (.response 429 hdr b) =
      .error (.rateLimitError 429 (parseRetryAfter hdr))) ∧
    (∀ b, handleOutcome (.response 429 (some "30") b) =
      .error (.rateLimitError 429 (some 30))) ∧
    (∀ b, handleOutcome (.response 429 none b) = .error (.rateLimitError 429 none)) ∧
    (∀ s hdr b, 500 ≤ s → s ≤ 599 →
      handleOutcome (.response s hdr b) = .error (.serverError s)) ∧
    (handleOutcome .networkFailure = .error .connectionError) ∧
    (∀ s hdr b e, 400 ≤ s → handleOutcome (.response s hdr b) = .error e →
      e.statusCode = some s) ∧
    (∀ (c : Client) txt config uc pr (net : String → EvaluateRequest → HttpOutcome),
      NopeClient.evaluate c none (some txt) config uc pr net =
      (handleOutcome
        (net c.evaluateUrl ⟨none, some txt, config.getD defaultEvaluateConfig, uc, pr⟩),
       true)) := by
  refine ⟨fun hdr b => rfl, fun hdr b => rfl, fun hdr b => rfl, fun hdr b => rfl,
    fun hdr b => rfl, ?_, fun b => rfl, ?_, rfl, ?_, fun _ _ _ _ _ _ => rfl⟩
  · intro b
    have h30 : parseRetryAfter (some "30") = some 30 := by decide
    rw [← h30]
    rfl
  · intro s hdr b h5 h6
    simp only [handleOutcome]
    rw [if_neg (by omega), if_neg (by omega), if_neg (by omega), if_neg (by omega),
      if_pos (by omega)]
  · intro s hdr b e h4 h
    simp only [handleOutcome] at h
    split_ifs at h with h1 h2 h3 h4' h5
    · exact absurd h1 (by omega)
    · cases h
      rfl
    · cases h
      rfl
    · cases h
      rfl
    · cases h
      rfl
    · cases h
      rfl

/-- Witness for C2 at the concrete 5xx status 503. -/
theorem evaluate_status_error_mapping_witness :
    handleOutcome (.response 503 none .null) = .error (.serverError 503) :=
  evaluate_status_error_mapping.2.2.2.2.2.2.2.1 503 none Json.null
    (by norm_num) (by norm_num)

-- =========================================================================
-- C8: base URL normalization, endpoint, and constructor defaults
-- =========================================================================

theorem stripTrailingSlash_append (s : String) : stripTrailingSlash (s ++ "/") = s := by
  cases s with
  | mk l =>
    show stripTrailingSlash ⟨l ++ ['/']⟩ = ⟨l⟩
    unfold stripTrailingSlash
    simp [List.getLast?_concat, List.dropLast_concat]

/-- C8: the constructor strips a single trailing slash from the configured
base URL (`"http://localhost:8788/"` yields `"http://localhost:8788"`),
requests target `{base_url}/v1/evaluate` with no double slash, and the
defaults are `base_url = "https://api.nope.net"` and `timeout = 30.0`. -/
theorem client_base_url_normalization :
    (∀ k t, (mkClient k (some "http://localhost:8788/") t).base_url =
      "http://localhost:8788") ∧
    (∀ k t, (mkClient k (some "http://localhost:8788/") t).evaluateUrl =
      "http://localhost:8788/v1/evaluate") ∧
    (∀ s, stripTrailingSlash (s ++ "/") = s) ∧
    (∀ k t s, (mkClient k (some (s ++ "/")) t).base_url = s) ∧
    (∀ k t s, (mkClient k (some (s ++ "/")) t).evaluateUrl = s ++ "/v1/evaluate") ∧
    (∀ k, (mkClient k none none).base_url = "https://api.nope.net") ∧
    (∀ k, (mkClient k none none).timeout = 30) ∧
    (∀ k, (mkClient k none none).evaluateUrl = "https://api.nope.net/v1/evaluate") := by
  refine ⟨fun k t => rfl, fun k t => rfl, stripTrailingSlash_append, ?_, ?_,
    fun k => rfl, fun k => rfl, fun k => rfl⟩
  · intro k t s
    simp [mkClient, stripTrailingSlash_append]
  · intro k t s
    simp [mkClient, Client.evaluateUrl, stripTrailingSlash_append]

-- =========================================================================
-- C10: the request model does not enforce exclusivity; the facade does
-- =========================================================================

/-- C10: `EvaluateRequest` itself places no exclusivity constraint on
`messages`/`text` — every combination (both absent, both present, exactly
one) constructs successfully, with an omitted `config` defaulting to an
`EvaluateConfig` with every field `None`; the exclusivity check lives in
the client facade, which refuses both-or-neither before invoking the
transport. -/
theorem evaluateRequest_model_no_exclusivity :
    (∀ (om : Option (List Message)) (ot : Option String),
      parseEvaluateRequest (.obj [("messages", encOptMessages om), ("text", encOptStr ot)]) =
        .ok ⟨om, ot, defaultEvaluateConfig, none, none⟩) ∧
    (defaultEvaluateConfig =
      ⟨none, none, none, none, none, none, none, none, none, none, none⟩) ∧
    (∀ c config uc pr net, (evaluateCore c none none config uc pr net).2 = false) ∧
    (∀ c ms txt config uc pr net,
      (evaluateCore c (some ms) (some txt) config uc pr net).2 = false) := by
  refine ⟨?_, rfl, fun c config uc pr net => rfl, fun c ms txt config uc pr net => rfl⟩
  intro om ot
  cases om <;> cases ot <;>
    simp [parseEvaluateRequest, lookupField, decOptMessages, decOptStr, decConfig,
      encOptStr, encOptMessages, parseList_message, emap_ok, eok_bind]

end Nope
